import Mathlib

/-!
Shallow embedding of `radioctrl/main.go` (package main): the playback state
machine (station index and volume), the MPV control socket interaction
(`SendMPVCommand`), the gamepad event translator (`processGamepadEvent`),
and the handling of the fetched station list in `main`.

Conventions: Go `%` on `int` is the truncated remainder, embedded as
`Int.tmod`; Go runtime panics (string/slice index out of range, integer
division by zero) are embedded as `none` of an `Option` result; the network
side effects of one socket interaction are abstracted into a `ChannelEnv`
record saying which of the dial / write / read steps succeed.
-/

namespace Radioctrl

/-- RadioStation (main.go 45-48): a name and a stream URL. -/
structure RadioStation where
  name : String
  url : String
  deriving DecidableEq

/-- ButtonConfig (main.go 35-42). The button numbers are `uint8` in Go; the
dispatch logic only compares them for equality, so they are embedded as
`Nat`. -/
structure ButtonConfig where
  play : Nat
  next : Nat
  previous : Nat
  stop : Nat
  volumeUp : Nat
  volumeDown : Nat
  deriving DecidableEq

/-- JoystickEvent (main.go 51-56): `Time uint32`, `Value int16`,
`Type uint8`, `Number uint8`. -/
structure JoystickEvent where
  time : Nat
  value : Int
  type : Nat
  number : Nat
  deriving DecidableEq

/-- Outcome of the reply read in SendMPVCommand (main.go 171-176): Go
distinguishes a successful read, `io.EOF`, and any other read error; none
of the three affects the returned value. -/
inductive ReadOutcome
  | ok
  | eof
  | failed
  deriving DecidableEq

/-- Environment of one SendMPVCommand invocation: whether `net.Dial`
succeeds, whether `conn.Write` succeeds, and what the reply read yields. -/
structure ChannelEnv where
  dialOk : Bool
  writeOk : Bool
  readOutcome : ReadOutcome
  deriving DecidableEq

/-- The newline normalisation at the top of SendMPVCommand (main.go
154-157): `if command[len(command)-1] != '\n' { command += "\n" }`.
The index `command[len(command)-1]` panics at runtime when the string is
empty (index -1 out of range); the panic is embedded as `none`. -/
def normalizeCommand (command : String) : Option String :=
  if command.length = 0 then none
  else if command.back ≠ '\n' then some (command ++ "\n")
  else some command

/-- SendMPVCommand (main.go 153-179). After the newline normalisation it
returns an error exactly when the dial (lines 160-163) or the write (lines
167-169) fails; a missing or unreadable reply (lines 172-176) is only
logged and the function still returns nil. -/
def SendMPVCommand (env : ChannelEnv) (command : String) :
    Option (Except String Unit) :=
  (normalizeCommand command).map (fun _ =>
    if env.dialOk = false then Except.error "failed to connect to MPV socket"
    else if env.writeOk = false then Except.error "failed to write to MPV socket"
    else Except.ok ())

/-- The clamp block of AdjustVolume (main.go 234-239): add the delta, then
saturate into [0, 100]. -/
def clampVolume (v : Int) : Int :=
  if v < 0 then 0 else if v > 100 then 100 else v

/-- The set_property volume message built at main.go 241. -/
def volumeCommand (v : Int) : String :=
  "\x7b \"command\": [\"set_property\", \"volume\", " ++ toString v ++ "] \x7d"

/-- The stop message sent by StopPlayer (main.go 248). -/
def stopCommand : String :=
  "\x7b \"command\": [\"stop\"] \x7d"

/-- AdjustVolume (main.go 233-243): clamps the volume and sends the
set_property message; the returned error is exactly the one of
SendMPVCommand. Returns the new volume together with that result. -/
def AdjustVolume (env : ChannelEnv) (vol delta : Int) :
    Int × Option (Except String Unit) :=
  let v := clampVolume (vol + delta)
  (v, SendMPVCommand env (volumeCommand v))

/-- The index assignment of PlayNextStation (main.go 220):
`currentIdx = (currentIdx + 1) % len(stations)`; Go `%` is the truncated
remainder `Int.tmod`. -/
def nextIdxUpdate (len : Nat) (currentIdx : Int) : Int :=
  (currentIdx + 1).tmod (len : Int)

/-- The index assignment of PlayPrevStation (main.go 227):
`currentIdx = (currentIdx - 1 + len(stations)) % len(stations)`. -/
def prevIdxUpdate (len : Nat) (currentIdx : Int) : Int :=
  (currentIdx - 1 + (len : Int)).tmod (len : Int)

/-- The shared playback state (main.go 58-67): the station list, the
current index and the current volume (initially 50). -/
structure PlaybackState where
  stations : List RadioStation
  currentIdx : Int
  currentVol : Int
  deriving DecidableEq

/-- Observable effects on the player process and its control socket. -/
inductive Effect
  | killAndSpawn (url : String)
  | send (msg : String)
  deriving DecidableEq

/-- AdjustVolume as a transition of the shared playback state, the socket
send abstracted into an emitted `Effect.send` (the `AdjustVolume` function
above keeps the channel error path). -/
def AdjustVolumeS (s : PlaybackState) (delta : Int) :
    PlaybackState × List Effect :=
  let v := clampVolume (s.currentVol + delta)
  ({ s with currentVol := v }, [Effect.send (volumeCommand v)])

/-- StartMPV (main.go 182-216): kills any previous player process, spawns a
new one on `url`, waits for its socket, then re-applies the current volume
through `AdjustVolume(0)` (main.go 211). -/
def StartMPV (s : PlaybackState) (url : String) :
    PlaybackState × List Effect :=
  let p := AdjustVolumeS s 0
  (p.1, Effect.killAndSpawn url :: p.2)

/-- The `stations[currentIdx]` lookup used by the status handler, the play
paths and the station switchers. Go panics on any out-of-range index,
negative included; out of range is embedded as `none`. -/
def stationAt (s : PlaybackState) : Option RadioStation :=
  if s.currentIdx < 0 then none else s.stations[s.currentIdx.toNat]?

/-- PlayNextStation (main.go 219-223). With an empty station list the Go
`%` in the index update is an integer division by zero, a runtime panic,
embedded as `none`; otherwise the index is updated first and the station at
the new index is started. -/
def PlayNextStation (s : PlaybackState) : Option (PlaybackState × List Effect) :=
  if s.stations.length = 0 then none
  else
    let s2 := { s with currentIdx := nextIdxUpdate s.stations.length s.currentIdx }
    (stationAt s2).map (fun st => StartMPV s2 st.url)

/-- PlayPrevStation (main.go 226-230), the mirror image of
PlayNextStation. -/
def PlayPrevStation (s : PlaybackState) : Option (PlaybackState × List Effect) :=
  if s.stations.length = 0 then none
  else
    let s2 := { s with currentIdx := prevIdxUpdate s.stations.length s.currentIdx }
    (stationAt s2).map (fun st => StartMPV s2 st.url)

/-- StopPlayer (main.go 246-249): sends the stop command and leaves the
playback state untouched; the player process stays alive idle. -/
def StopPlayer (s : PlaybackState) : PlaybackState × List Effect :=
  (s, [Effect.send stopCommand])

/-- The play action shared by the POST /play handler (main.go 322) and the
Play button case (main.go 284): `StartMPV(stations[currentIdx].URL)`
without touching the index; indexing an empty list panics (`none`). -/
def PlayCurrent (s : PlaybackState) : Option (PlaybackState × List Effect) :=
  (stationAt s).map (fun st => StartMPV s st.url)

/-- The GET /status handler body (main.go 314-319): reports
`stations[currentIdx].Name` and `currentVol`; indexing an empty list
panics (`none`). -/
def statusHandler (s : PlaybackState) : Option (String × Int) :=
  (stationAt s).map (fun st => (st.name, s.currentVol))

/-- The playback actions of the switch arms of processGamepadEvent
(main.go 282-295). -/
inductive PlayerAction
  | play
  | next
  | previous
  | stop
  | volumeUp
  | volumeDown
  deriving DecidableEq

/-- The dispatch decision of processGamepadEvent (main.go 276-295): only events
with `Type == 1` and `Value == 1` act (main.go 277-279); the switch on
`event.Number` tries the cases in source order Play, Next, Previous, Stop,
VolumeUp, VolumeDown, the first matching case fires, and there is no
default case. Returns the selected action, `none` for a no-op. -/
def processGamepadEvent (cfg : ButtonConfig) (e : JoystickEvent) :
    Option PlayerAction :=
  if e.type ≠ 1 ∨ e.value ≠ 1 then none
  else if e.number = cfg.play then some PlayerAction.play
  else if e.number = cfg.next then some PlayerAction.next
  else if e.number = cfg.previous then some PlayerAction.previous
  else if e.number = cfg.stop then some PlayerAction.stop
  else if e.number = cfg.volumeUp then some PlayerAction.volumeUp
  else if e.number = cfg.volumeDown then some PlayerAction.volumeDown
  else none

/-- Effect of one dispatched action on the playback state (the switch
bodies, main.go 283-295). -/
def applyAction (s : PlaybackState) : PlayerAction → Option (PlaybackState × List Effect)
  | PlayerAction.play => PlayCurrent s
  | PlayerAction.next => PlayNextStation s
  | PlayerAction.previous => PlayPrevStation s
  | PlayerAction.stop => some (StopPlayer s)
  | PlayerAction.volumeUp => some (AdjustVolumeS s 10)
  | PlayerAction.volumeDown => some (AdjustVolumeS s (-10))

/-- One gamepad event processed end to end: events falling through the
dispatch guard leave the state untouched and emit nothing. -/
def applyEvent (cfg : ButtonConfig) (s : PlaybackState) (e : JoystickEvent) :
    Option (PlaybackState × List Effect) :=
  match processGamepadEvent cfg e with
  | none => some (s, [])
  | some a => applyAction s a

/-- Spec-side reading of the dispatch rule: the button mapping consulted as
an ordered table play, next, previous, stop, volume-up, volume-down; the
first entry whose button number matches wins. -/
def buttonTable (cfg : ButtonConfig) : List (Nat × PlayerAction) :=
  [(cfg.play, PlayerAction.play), (cfg.next, PlayerAction.next),
   (cfg.previous, PlayerAction.previous), (cfg.stop, PlayerAction.stop),
   (cfg.volumeUp, PlayerAction.volumeUp), (cfg.volumeDown, PlayerAction.volumeDown)]

/-- Spec-side dispatch: first match in the fixed order, `none` when no
entry matches. -/
def firstMatchDispatch (cfg : ButtonConfig) (n : Nat) : Option PlayerAction :=
  (buttonTable cfg).lookup n

/-- The handling in main of the station fetch result (main.go 402-408): a fetch
error is fatal (`log.Fatalf`, embedded as `none`, the server is never
started); any successfully decoded list — the empty list included — is
installed as the catalog and startup continues to the HTTP server. There
is no emptiness check. -/
def startupStations (fetchResult : Except String (List RadioStation)) :
    Option (List RadioStation) :=
  match fetchResult with
  | Except.error _ => none
  | Except.ok fetched => some fetched

/-- Memory operations of the unsynchronised index update of
PlayNextStation (main.go 220). The assignment
`currentIdx = (currentIdx + 1) % len(stations)` is not protected by
`mpvMutex` (the lock is only taken later, inside StartMPV), so it is a load
of `currentIdx` followed by a store of the computed value, and the loads
and stores of two concurrent callers A and B may interleave freely. -/
inductive RaceOp
  | readA
  | writeA
  | readB
  | writeB
  deriving DecidableEq

/-- Shared `currentIdx` plus the local value each caller has loaded. -/
structure RaceState where
  currentIdx : Int
  regA : Int
  regB : Int
  deriving DecidableEq

/-- One memory operation of a concurrent PlayNextStation index update. -/
def raceStep (len : Nat) (s : RaceState) : RaceOp → RaceState
  | RaceOp.readA => { s with regA := s.currentIdx }
  | RaceOp.writeA => { s with currentIdx := nextIdxUpdate len s.regA }
  | RaceOp.readB => { s with regB := s.currentIdx }
  | RaceOp.writeB => { s with currentIdx := nextIdxUpdate len s.regB }

/-- Run an interleaving of the memory operations of the two callers. -/
def runRace (len : Nat) (ops : List RaceOp) (s : RaceState) : RaceState :=
  ops.foldl (raceStep len) s

/-- The three-station catalog of the end-to-end scenario. -/
def demoStations : List RadioStation :=
  [{ name := "A", url := "urlA" }, { name := "B", url := "urlB" },
   { name := "C", url := "urlC" }]

/-- Initial playback state of the scenario: index 0, volume 50. -/
def demoInit : PlaybackState :=
  { stations := demoStations, currentIdx := 0, currentVol := 50 }

/-- The scenario Next; AdjustVolume(+10); Previous; Stop; Play run from
`demoInit`, collecting all emitted effects in order. -/
def demoRun : Option (PlaybackState × List Effect) :=
  (PlayNextStation demoInit).bind (fun p1 =>
    let p2 := AdjustVolumeS p1.1 10
    (PlayPrevStation p2.1).bind (fun p3 =>
      let p4 := StopPlayer p3.1
      (PlayCurrent p4.1).map (fun p5 =>
        (p5.1, p1.2 ++ p2.2 ++ p3.2 ++ p4.2 ++ p5.2))))

/-- The volume after a whole sequence of AdjustVolume calls, started from
the initial value 50 (main.go 63). -/
def volumeAfter (env : ChannelEnv) (ds : List Int) : Int :=
  ds.foldl (fun v d => (AdjustVolume env v d).1) 50

/-! Helper lemmas. -/

/-- A nonempty string has nonzero length. -/
theorem length_ne_zero_of_ne_empty (s : String) (h : s ≠ "") : s.length ≠ 0 := by
  intro h0
  apply h
  cases s with
  | mk data =>
    have hd : data.length = 0 := h0
    simp only [List.length_eq_zero] at hd
    subst hd
    rfl

/-- The volume message is never the empty string, so sending it cannot hit
the empty-command panic. -/
theorem volumeCommand_length_ne_zero (v : Int) : (volumeCommand v).length ≠ 0 := by
  have h : 0 < ("\x7b \"command\": [\"set_property\", \"volume\", " : String).length := by
    decide
  unfold volumeCommand
  rw [String.length_append, String.length_append]
  omega

/-- Normalisation succeeds on every nonempty command. -/
theorem normalizeCommand_isSome (cmd : String) (h : cmd.length ≠ 0) :
    (normalizeCommand cmd).isSome = true := by
  unfold normalizeCommand
  rw [if_neg h]
  split <;> rfl

/-- For a nonempty command, SendMPVCommand returns a value, and that value
is success exactly when both the dial and the write succeed; the reply read
outcome plays no part. -/
theorem SendMPVCommand_spec (env : ChannelEnv) (cmd : String) (h : cmd.length ≠ 0) :
    (SendMPVCommand env cmd).isSome = true ∧
    (SendMPVCommand env cmd = some (Except.ok ()) ↔
      env.dialOk = true ∧ env.writeOk = true) := by
  obtain ⟨c, hc⟩ := Option.isSome_iff_exists.mp (normalizeCommand_isSome cmd h)
  unfold SendMPVCommand
  rw [hc]
  obtain ⟨d, w, r⟩ := env
  cases d <;> cases w <;> simp

/-- The clamp block equals the mathematical clamp into [0, 100]. -/
theorem clampVolume_eq_clamp (v : Int) : clampVolume v = max 0 (min 100 v) := by
  unfold clampVolume
  rw [max_def, min_def]
  split_ifs <;> omega

/-- The clamp block always lands in [0, 100]. -/
theorem clampVolume_bounds (v : Int) : 0 ≤ clampVolume v ∧ clampVolume v ≤ 100 := by
  unfold clampVolume
  split_ifs <;> omega

/-- Unfolding of the error component of AdjustVolume: it is exactly
the result of SendMPVCommand on the volume message. -/
theorem adjustVolume_snd (env : ChannelEnv) (vol delta : Int) :
    (AdjustVolume env vol delta).2 =
      SendMPVCommand env (volumeCommand (clampVolume (vol + delta))) := by
  simp only [AdjustVolume]

/-- Folding the volume component of AdjustVolume from any value in [0, 100]
stays in [0, 100]. -/
theorem volume_foldl_bounds (env : ChannelEnv) (ds : List Int) :
    ∀ v : Int, 0 ≤ v → v ≤ 100 →
      0 ≤ ds.foldl (fun v d => (AdjustVolume env v d).1) v ∧
      ds.foldl (fun v d => (AdjustVolume env v d).1) v ≤ 100 := by
  induction ds with
  | nil =>
    intro v h0 h1
    simpa using ⟨h0, h1⟩
  | cons d ds ih =>
    intro v h0 h1
    simp only [List.foldl_cons]
    exact ih _ (clampVolume_bounds (v + d)).1 (clampVolume_bounds (v + d)).2

/-! Claim theorems. -/

/-- C1: at the failing input — a fetch that succeeds but yields the empty
station list — main does not fail fast: startupStations installs the empty
catalog and startup proceeds to the HTTP server exactly as for any other
successfully fetched list; only a fetch error is fatal. This contradicts
the claim that an empty fetched list terminates the process before the
server starts. -/
theorem startup_accepts_empty_catalog :
    startupStations (Except.ok ([] : List RadioStation)) = some [] ∧
    (∀ fetched : List RadioStation,
      startupStations (Except.ok fetched) = some fetched) ∧
    (∀ msg : String, startupStations (Except.error msg) = none) :=
  ⟨rfl, fun _ => rfl, fun _ => rfl⟩

/-- C2: two concurrent PlayNextStation callers on a 3-station catalog at
index 0. In the valid interleaving readA, readB, writeA, writeB — possible
because the index assignment at main.go 220 is not under mpvMutex — both
callers load index 0 and both store 1, so the index advances by 1, not by
the claimed (0 + 2) % 3 = 2; the fully sequential interleaving of the same
two updates does advance it by 2. -/
theorem concurrent_next_loses_update :
    (runRace 3 [RaceOp.readA, RaceOp.readB, RaceOp.writeA, RaceOp.writeB]
      { currentIdx := 0, regA := 0, regB := 0 }).currentIdx = 1 ∧
    (runRace 3 [RaceOp.readA, RaceOp.writeA, RaceOp.readB, RaceOp.writeB]
      { currentIdx := 0, regA := 0, regB := 0 }).currentIdx = 2 ∧
    (1 : Int) ≠ 2 := by
  decide

/-- C4: AdjustVolume is saturating — the stored volume is exactly
clamp(v + delta, 0, 100), hence always inside [0, 100]; its result is an
error exactly when the channel dial or write fails, independent of the
delta; and any sequence of AdjustVolume calls from the initial volume 50
keeps the volume inside [0, 100]. -/
theorem adjustVolume_saturating (env : ChannelEnv) (v d : Int)
    (_h0 : 0 ≤ v) (_h1 : v ≤ 100) :
    (AdjustVolume env v d).1 = max 0 (min 100 (v + d)) ∧
    (0 ≤ (AdjustVolume env v d).1 ∧ (AdjustVolume env v d).1 ≤ 100) ∧
    ((AdjustVolume env v d).2 = some (Except.ok ()) ↔
      env.dialOk = true ∧ env.writeOk = true) ∧
    (∀ ds : List Int, 0 ≤ volumeAfter env ds ∧ volumeAfter env ds ≤ 100) := by
  refine ⟨clampVolume_eq_clamp (v + d), clampVolume_bounds (v + d), ?_, ?_⟩
  · rw [adjustVolume_snd]
    exact (SendMPVCommand_spec env (volumeCommand (clampVolume (v + d)))
      (volumeCommand_length_ne_zero _)).2
  · intro ds
    exact volume_foldl_bounds env ds 50 (by norm_num) (by norm_num)

/-- C4 witness: from volume 95 a delta of +10 saturates to exactly 100,
from volume 5 a delta of -10 saturates to exactly 0, and with a healthy
channel the call reports success. -/
theorem adjustVolume_saturating_witness :
    (AdjustVolume ⟨true, true, ReadOutcome.ok⟩ 95 10).1 = 100 ∧
    (AdjustVolume ⟨true, true, ReadOutcome.ok⟩ 5 (-10)).1 = 0 ∧
    (AdjustVolume ⟨true, true, ReadOutcome.ok⟩ 95 10).2 = some (Except.ok ()) := by
  have h95 := adjustVolume_saturating ⟨true, true, ReadOutcome.ok⟩ 95 10
    (by norm_num) (by norm_num)
  have h5 := adjustVolume_saturating ⟨true, true, ReadOutcome.ok⟩ 5 (-10)
    (by norm_num) (by norm_num)
  exact ⟨h95.1.trans (by decide), h5.1.trans (by decide),
    h95.2.2.1.mpr ⟨rfl, rfl⟩⟩

/-- C5: for every nonempty message, the send returns a value, that value
is an error exactly when the dial or the write fails, and the outcome of
the reply read never changes the result — an unreadable reply is still
success. -/
theorem send_error_iff_channel_failure (env : ChannelEnv) (msg : String)
    (h : msg ≠ "") :
    (SendMPVCommand env msg).isSome = true ∧
    (SendMPVCommand env msg = some (Except.ok ()) ↔
      env.dialOk = true ∧ env.writeOk = true) ∧
    (∀ r : ReadOutcome,
      SendMPVCommand { env with readOutcome := r } msg = SendMPVCommand env msg) := by
  have hl := length_ne_zero_of_ne_empty msg h
  refine ⟨(SendMPVCommand_spec env msg hl).1, (SendMPVCommand_spec env msg hl).2, ?_⟩
  intro r
  obtain ⟨d, w, r0⟩ := env
  rfl

/-- C5 witness: with a connected, writable channel whose reply read fails,
the send still reports success. -/
theorem send_error_iff_channel_failure_witness :
    SendMPVCommand ⟨true, true, ReadOutcome.failed⟩ "loadfile x" = some (Except.ok ()) := by
  have h := send_error_iff_channel_failure ⟨true, true, ReadOutcome.failed⟩
    "loadfile x" (by decide)
  exact h.2.1.mpr ⟨rfl, rfl⟩

/-- C10: SendMPVCommand inspects the last character of its message without
an emptiness check, so the empty message panics (`none`), already inside
the normalisation; every nonempty message is handled totally, and the
newline is appended exactly when the message does not already end in
one. -/
theorem send_empty_command_panics (env : ChannelEnv) (cmd : String)
    (h : cmd ≠ "") :
    SendMPVCommand env "" = none ∧
    normalizeCommand "" = none ∧
    (SendMPVCommand env cmd).isSome = true ∧
    (normalizeCommand cmd).isSome = true ∧
    (cmd.back = '\n' → normalizeCommand cmd = some cmd) ∧
    (cmd.back ≠ '\n' → normalizeCommand cmd = some (cmd ++ "\n")) := by
  have hl := length_ne_zero_of_ne_empty cmd h
  refine ⟨rfl, rfl, (SendMPVCommand_spec env cmd hl).1,
    normalizeCommand_isSome cmd hl, ?_, ?_⟩
  · intro hb
    unfold normalizeCommand
    rw [if_neg hl, if_neg (not_not_intro hb)]
  · intro hb
    unfold normalizeCommand
    rw [if_neg hl, if_pos hb]

/-- Iterating the PlayNextStation index update N times from 0 lands on
N mod L (mathematical mod). -/
theorem nextIdxUpdate_iter (L : Nat) (h : 1 ≤ L) (N : Nat) :
    (nextIdxUpdate L)^[N] 0 = (N : Int) % (L : Int) := by
  induction N with
  | zero => simp
  | succ n ih =>
    rw [Function.iterate_succ_apply', ih]
    have hL0 : (0 : Int) < (L : Int) := by exact_mod_cast h
    have h0 : 0 ≤ (n : Int) % (L : Int) := Int.emod_nonneg _ (ne_of_gt hL0)
    unfold nextIdxUpdate
    rw [Int.tmod_eq_emod (by omega) (by omega), Int.emod_add_emod]
    push_cast
    rfl

/-- Iterating the PlayPrevStation index update N times from 0 lands on
(-N) mod L (mathematical mod). -/
theorem prevIdxUpdate_iter (L : Nat) (h : 1 ≤ L) (N : Nat) :
    (prevIdxUpdate L)^[N] 0 = (-(N : Int)) % (L : Int) := by
  induction N with
  | zero => simp
  | succ n ih =>
    rw [Function.iterate_succ_apply', ih]
    have hL0 : (0 : Int) < (L : Int) := by exact_mod_cast h
    have h0 : 0 ≤ (-(n : Int)) % (L : Int) := Int.emod_nonneg _ (ne_of_gt hL0)
    unfold prevIdxUpdate
    rw [Int.tmod_eq_emod (by omega) (by omega)]
    rw [show (-(n : Int) % (L : Int) - 1 + (L : Int)) =
      (-(n : Int) % (L : Int) + ((L : Int) - 1)) from by ring]
    rw [Int.emod_add_emod]
    rw [show (-(n : Int) + ((L : Int) - 1)) =
      (-((n : Int) + 1) + 1 * (L : Int)) from by ring]
    rw [@Int.add_mul_emod_self (-((n : Int) + 1)) 1 (L : Int)]
    push_cast
    rfl

/-- C3: on a catalog of length L ≥ 1, N sequential Next index updates from
index 0 end at N mod L, and N sequential Previous index updates from index
0 end at (-N) mod L — each Previous computes (current - 1 + L) mod L. -/
theorem sequential_next_prev_mod (L N : Nat) (h : 1 ≤ L) :
    (nextIdxUpdate L)^[N] 0 = (N : Int) % (L : Int) ∧
    (prevIdxUpdate L)^[N] 0 = (-(N : Int)) % (L : Int) :=
  ⟨nextIdxUpdate_iter L h N, prevIdxUpdate_iter L h N⟩

/-- C3 witness: on a 3-station catalog, 5 Next calls from index 0 end at
5 mod 3 = 2 and 5 Previous calls from index 0 end at (-5) mod 3 = 1. -/
theorem sequential_next_prev_mod_witness :
    (nextIdxUpdate 3)^[5] 0 = 2 ∧ (prevIdxUpdate 3)^[5] 0 = 1 := by
  have h := sequential_next_prev_mod 3 5 (by norm_num)
  exact ⟨h.1.trans (by decide), h.2.trans (by decide)⟩

/-- C10 witness: the concrete message "abc" does not end in a newline and
gets one appended; the one-newline message "abc\n" is passed through
unchanged. -/
theorem send_empty_command_panics_witness :
    normalizeCommand "abc" = some ("abc" ++ "\n") ∧
    normalizeCommand "abc\n" = some "abc\n" ∧
    SendMPVCommand ⟨true, true, ReadOutcome.ok⟩ "" = none := by
  have h1 := send_empty_command_panics ⟨true, true, ReadOutcome.ok⟩ "abc" (by decide)
  have h2 := send_empty_command_panics ⟨true, true, ReadOutcome.ok⟩ "abc\n" (by decide)
  exact ⟨h1.2.2.2.2.2 (by decide), h2.2.2.2.2.1 (by decide), h1.1⟩

/-- List.lookup finds a matching head entry. -/
theorem lookup_cons_pos {k a : Nat} {b : PlayerAction} {es : List (Nat × PlayerAction)}
    (h : a = k) : ((k, b) :: es).lookup a = some b := by
  simp [List.lookup_cons, h]

/-- List.lookup skips a non-matching head entry. -/
theorem lookup_cons_neg {k a : Nat} {b : PlayerAction} {es : List (Nat × PlayerAction)}
    (h : a ≠ k) : ((k, b) :: es).lookup a = es.lookup a := by
  simp [List.lookup_cons, beq_false_of_ne h]

/-- C6: a device record whose kind is not the button-press type 1 or whose
value is not pressed (1) — releases, axis motion, init-sync records —
dispatches no command and leaves the playback state unchanged with no
emitted effect. -/
theorem gamepad_ignores_non_press (cfg : ButtonConfig) (s : PlaybackState)
    (e : JoystickEvent) (h : e.type ≠ 1 ∨ e.value ≠ 1) :
    processGamepadEvent cfg e = none ∧ applyEvent cfg s e = some (s, []) := by
  have hp : processGamepadEvent cfg e = none := by
    unfold processGamepadEvent
    rw [if_pos h]
  refine ⟨hp, ?_⟩
  unfold applyEvent
  rw [hp]

/-- C6 witness: a button-release record (value 0) and an axis-motion record
(kind 2) both dispatch nothing and leave the demo state untouched. -/
theorem gamepad_ignores_non_press_witness :
    (processGamepadEvent ⟨0, 1, 2, 3, 7, 6⟩ ⟨10, 0, 1, 0⟩ = none ∧
      applyEvent ⟨0, 1, 2, 3, 7, 6⟩ demoInit ⟨10, 0, 1, 0⟩ = some (demoInit, [])) ∧
    (processGamepadEvent ⟨0, 1, 2, 3, 7, 6⟩ ⟨10, 1, 2, 0⟩ = none ∧
      applyEvent ⟨0, 1, 2, 3, 7, 6⟩ demoInit ⟨10, 1, 2, 0⟩ = some (demoInit, [])) :=
  ⟨gamepad_ignores_non_press ⟨0, 1, 2, 3, 7, 6⟩ demoInit ⟨10, 0, 1, 0⟩
      (Or.inr (by decide)),
    gamepad_ignores_non_press ⟨0, 1, 2, 3, 7, 6⟩ demoInit ⟨10, 1, 2, 0⟩
      (Or.inl (by decide))⟩

/-- C7: for every pressed-button record, the switch of processGamepadEvent
selects exactly the first entry matching the button number in the ordered
table play, next, previous, stop, volume-up, volume-down (so a button
mapped to several actions fires only the earliest one), and a button
matching no entry is a no-op. -/
theorem dispatch_is_first_match (cfg : ButtonConfig) (e : JoystickEvent)
    (h1 : e.type = 1) (h2 : e.value = 1) :
    processGamepadEvent cfg e = firstMatchDispatch cfg e.number := by
  have hg : ¬(e.type ≠ 1 ∨ e.value ≠ 1) := by
    push_neg
    exact ⟨h1, h2⟩
  unfold processGamepadEvent firstMatchDispatch buttonTable
  rw [if_neg hg]
  by_cases hp : e.number = cfg.play
  · rw [if_pos hp, lookup_cons_pos hp]
  rw [if_neg hp, lookup_cons_neg hp]
  by_cases hn : e.number = cfg.next
  · rw [if_pos hn, lookup_cons_pos hn]
  rw [if_neg hn, lookup_cons_neg hn]
  by_cases hv : e.number = cfg.previous
  · rw [if_pos hv, lookup_cons_pos hv]
  rw [if_neg hv, lookup_cons_neg hv]
  by_cases hs : e.number = cfg.stop
  · rw [if_pos hs, lookup_cons_pos hs]
  rw [if_neg hs, lookup_cons_neg hs]
  by_cases hu : e.number = cfg.volumeUp
  · rw [if_pos hu, lookup_cons_pos hu]
  rw [if_neg hu, lookup_cons_neg hu]
  by_cases hd : e.number = cfg.volumeDown
  · rw [if_pos hd, lookup_cons_pos hd]
  rw [if_neg hd, lookup_cons_neg hd, List.lookup_nil]

/-- C7 witness: in a degenerate mapping where play and next share button 0,
a press of button 0 fires only play, the earliest match; a press of the
unmapped button 9 is a no-op. -/
theorem dispatch_is_first_match_witness :
    processGamepadEvent ⟨0, 0, 2, 3, 7, 6⟩ ⟨10, 1, 1, 0⟩ =
      firstMatchDispatch ⟨0, 0, 2, 3, 7, 6⟩ 0 ∧
    processGamepadEvent ⟨0, 0, 2, 3, 7, 6⟩ ⟨10, 1, 1, 0⟩ = some PlayerAction.play ∧
    processGamepadEvent ⟨0, 0, 2, 3, 7, 6⟩ ⟨10, 1, 1, 9⟩ =
      firstMatchDispatch ⟨0, 0, 2, 3, 7, 6⟩ 9 ∧
    processGamepadEvent ⟨0, 0, 2, 3, 7, 6⟩ ⟨10, 1, 1, 9⟩ = none := by
  have ha := dispatch_is_first_match ⟨0, 0, 2, 3, 7, 6⟩ ⟨10, 1, 1, 0⟩ rfl rfl
  have hb := dispatch_is_first_match ⟨0, 0, 2, 3, 7, 6⟩ ⟨10, 1, 1, 9⟩ rfl rfl
  exact ⟨ha, ha.trans (by decide), hb, hb.trans (by decide)⟩

/-- Bounds of the truncated remainder for a nonnegative dividend and a
positive modulus. -/
theorem tmod_bounds (L : Nat) (hL : 0 < L) {a : Int} (ha : 0 ≤ a) :
    0 ≤ a.tmod (L : Int) ∧ a.tmod (L : Int) < (L : Int) := by
  have hL0 : (0 : Int) < (L : Int) := by exact_mod_cast hL
  rw [Int.tmod_eq_emod ha (le_of_lt hL0)]
  exact ⟨Int.emod_nonneg _ (ne_of_gt hL0), Int.emod_lt_of_pos _ hL0⟩

/-- The station lookup succeeds whenever the index is inside the catalog. -/
theorem stationAt_isSome_of_lt (s : PlaybackState) (h0 : 0 ≤ s.currentIdx)
    (h1 : s.currentIdx < (s.stations.length : Int)) :
    (stationAt s).isSome = true := by
  unfold stationAt
  rw [if_neg (not_lt.mpr h0)]
  rw [List.getElem?_eq_getElem (by omega)]
  rfl

/-- C9: with an empty catalog — which startup does not reject — the Next
and Previous switchers hit the Go modulo-by-zero panic and the status and
play paths hit the out-of-range index panic (all `none`); with a nonempty
catalog and an in-range index all four operations produce a result, so the
panic branches are unreachable exactly under the nonempty precondition. -/
theorem empty_catalog_panics (s : PlaybackState) :
    (s.stations = [] →
      startupStations (Except.ok s.stations) = some s.stations ∧
      PlayNextStation s = none ∧ PlayPrevStation s = none ∧
      statusHandler s = none ∧ PlayCurrent s = none) ∧
    (s.stations ≠ [] → 0 ≤ s.currentIdx →
      s.currentIdx < (s.stations.length : Int) →
      (PlayNextStation s).isSome = true ∧ (PlayPrevStation s).isSome = true ∧
      (statusHandler s).isSome = true ∧ (PlayCurrent s).isSome = true) := by
  constructor
  · intro h
    have hst : stationAt s = none := by
      unfold stationAt
      rw [h]
      split
      · rfl
      · simp
    refine ⟨rfl, ?_, ?_, ?_, ?_⟩
    · unfold PlayNextStation
      rw [if_pos (by rw [h]; rfl)]
    · unfold PlayPrevStation
      rw [if_pos (by rw [h]; rfl)]
    · unfold statusHandler
      rw [hst]
      rfl
    · unfold PlayCurrent
      rw [hst]
      rfl
  · intro h h0 h1
    have hLpos : 0 < s.stations.length := List.length_pos.mpr h
    have hlen : s.stations.length ≠ 0 := by omega
    refine ⟨?_, ?_, ?_, ?_⟩
    · unfold PlayNextStation
      rw [if_neg hlen, Option.isSome_map']
      exact stationAt_isSome_of_lt _
        (tmod_bounds s.stations.length hLpos (by omega)).1
        (tmod_bounds s.stations.length hLpos (by omega)).2
    · unfold PlayPrevStation
      rw [if_neg hlen, Option.isSome_map']
      exact stationAt_isSome_of_lt _
        (tmod_bounds s.stations.length hLpos (by omega)).1
        (tmod_bounds s.stations.length hLpos (by omega)).2
    · unfold statusHandler
      rw [Option.isSome_map']
      exact stationAt_isSome_of_lt s h0 h1
    · unfold PlayCurrent
      rw [Option.isSome_map']
      exact stationAt_isSome_of_lt s h0 h1

/-- C9 witness: on the empty catalog every playback operation is a panic
(`none`), while on the three-station demo catalog Next and /status
succeed. -/
theorem empty_catalog_panics_witness :
    (PlayNextStation ⟨[], 0, 50⟩ = none ∧ PlayPrevStation ⟨[], 0, 50⟩ = none ∧
      statusHandler ⟨[], 0, 50⟩ = none ∧ PlayCurrent ⟨[], 0, 50⟩ = none) ∧
    ((PlayNextStation demoInit).isSome = true ∧
      (statusHandler demoInit).isSome = true) := by
  have h1 := (empty_catalog_panics ⟨[], 0, 50⟩).1 rfl
  have h2 := (empty_catalog_panics demoInit).2 (by decide) (by decide) (by decide)
  exact ⟨⟨h1.2.1, h1.2.2.1, h1.2.2.2.1, h1.2.2.2.2⟩, h2.1, h2.2.2.1⟩

/-- C8: the scenario on the catalog [A, B, C] from index 0, volume 50 —
Next; AdjustVolume(+10); Previous; Stop; Play — selects B (spawning the
player on urlB), sets the volume to 60 sending the set_property message,
selects A back, sends the stop command leaving index and volume alone, and
restarts A without moving the index; the final status is station "A" at
volume 60. -/
theorem scenario_next_vol_prev_stop_play :
    demoRun = some ({ stations := demoStations, currentIdx := 0, currentVol := 60 },
      [Effect.killAndSpawn "urlB", Effect.send (volumeCommand 50),
       Effect.send (volumeCommand 60),
       Effect.killAndSpawn "urlA", Effect.send (volumeCommand 60),
       Effect.send stopCommand,
       Effect.killAndSpawn "urlA", Effect.send (volumeCommand 60)]) ∧
    demoRun.map (fun p => statusHandler p.1) = some (some ("A", 60)) := by
  decide

end Radioctrl
